import Mathlib

/-!
Verification of the contacts bridge contract from
`src/macos/contacts/bridge_darwin.h`.

The header declares the full data model (references, contacts, find/get/
upsert/mutate/groups requests and results) and the entry points
`contacts_find`, `contacts_get`, `contacts_upsert`, `contacts_mutate`,
`contacts_groups`.  The data model below is translated directly from the
header's struct and enum declarations (C strings become `String`, pointer +
length pairs become `List`, boolean-valued C `int` flags become `Bool`,
`int64_t` becomes `Int`).  The behavioural logic of the entry points lives
behind the declarations; those operations are modelled from the spec, each
with a doc comment saying so.
-/

namespace Contacts

/-! ## Enumerations, from the header -/

def CONTACTS_ERR_NONE : Int := 0
def CONTACTS_ERR_PERMISSION_DENIED : Int := 1
def CONTACTS_ERR_NOT_FOUND : Int := 2
def CONTACTS_ERR_CONFLICT : Int := 3
def CONTACTS_ERR_VALIDATION : Int := 4
def CONTACTS_ERR_STORE : Int := 5
def CONTACTS_ERR_UNKNOWN : Int := 99

def CONTACTS_MATCH_ALL : Int := 0
def CONTACTS_MATCH_ANY : Int := 1

def CONTACTS_SORT_GIVEN_NAME : Int := 0
def CONTACTS_SORT_FAMILY_NAME : Int := 1
def CONTACTS_SORT_ASC : Int := 0
def CONTACTS_SORT_DESC : Int := 1

def CONTACTS_FIELD_NAMES : Nat := 1
def CONTACTS_FIELD_ORGANIZATION : Nat := 2
def CONTACTS_FIELD_EMAILS : Nat := 4
def CONTACTS_FIELD_PHONES : Nat := 8
def CONTACTS_FIELD_GROUPS : Nat := 16

def CONTACTS_MUTATION_SET_ORGANIZATION : Int := 1
def CONTACTS_MUTATION_SET_JOB_TITLE : Int := 2
def CONTACTS_MUTATION_SET_GIVEN_NAME : Int := 3
def CONTACTS_MUTATION_SET_FAMILY_NAME : Int := 4
def CONTACTS_MUTATION_ADD_TO_GROUP : Int := 5
def CONTACTS_MUTATION_REMOVE_FROM_GROUP : Int := 6
def CONTACTS_MUTATION_DELETE : Int := 7

def CONTACTS_GROUPS_LIST : Int := 1
def CONTACTS_GROUPS_CREATE : Int := 2
def CONTACTS_GROUPS_RENAME : Int := 3
def CONTACTS_GROUPS_DELETE : Int := 4

/-! ## Value model, from the header structs -/

/-- `ContactsRef` from the header: opaque identity of one directory record. -/
structure ContactsRef where
  id : String
  container_id : String
  account_id : String
deriving DecidableEq, Repr

/-- `ContactsLabeledValue` from the header: one labeled email/phone datum. -/
structure ContactsLabeledValue where
  label : String
  value : String
deriving DecidableEq, Repr

/-- `ContactsContact` from the header: a full directory record. -/
structure ContactsContact where
  ref : ContactsRef
  given_name : String
  family_name : String
  middle_name : String
  nickname : String
  organization : String
  job_title : String
  emails : List ContactsLabeledValue
  phones : List ContactsLabeledValue
  group_ids : List String
  modified_at_unix : Int
deriving DecidableEq, Repr

/-- `ContactsFindRequest` from the header.  A NULL C string predicate is an
absent predicate (`none` here); a NULL/zero-length id list is an absent
predicate (`[]` here). -/
structure ContactsFindRequest where
  name_contains : Option String
  organization_contains : Option String
  email_domain : Option String
  group_ids_any : List String
  ids : List String
  match_policy : Int
  limit : Int
  offset : Int
  include_meta : Bool
  sort_by : Int
  sort_order : Int
deriving DecidableEq, Repr

/-- `ContactsDraft` from the header: a contact payload without identity. -/
structure ContactsDraft where
  container_id : String
  given_name : String
  family_name : String
  middle_name : String
  nickname : String
  organization : String
  job_title : String
  emails : List ContactsLabeledValue
  phones : List ContactsLabeledValue
  group_ids : List String
deriving DecidableEq, Repr

/-- `ContactsPatch` from the header: a flag-gated sparse update.  The C `int`
`set_*` flags are modelled as `Bool` (nonzero = true). -/
structure ContactsPatch where
  ref : ContactsRef
  set_given_name : Bool
  given_name : String
  set_family_name : Bool
  family_name : String
  set_middle_name : Bool
  middle_name : String
  set_nickname : Bool
  nickname : String
  set_organization : Bool
  organization : String
  set_job_title : Bool
  job_title : String
  set_emails : Bool
  replace_emails : List ContactsLabeledValue
  set_phones : Bool
  replace_phones : List ContactsLabeledValue
  add_group_ids : List String
  remove_group_ids : List String
deriving DecidableEq, Repr

/-- `ContactsWriteResult` from the header: one outcome per targeted item.
The C `int` `succeeded`/`created`/`updated` flags are modelled as `Bool`;
a NULL `error_message` is `none`. -/
structure ContactsWriteResult where
  ref : ContactsRef
  succeeded : Bool
  created : Bool
  updated : Bool
  error_code : Int
  error_message : Option String
deriving DecidableEq, Repr

/-- `ContactsMutationOp` from the header: a typed op tag plus one string
payload. -/
structure ContactsMutationOp where
  type : Int
  value : String
deriving DecidableEq, Repr

/-- `ContactsGroup` from the header. -/
structure ContactsGroup where
  id : String
  container_id : String
  account_id : String
  name : String
deriving DecidableEq, Repr

/-- `ContactsUpsertRequest` from the header: drafts to create, then patches. -/
structure ContactsUpsertRequest where
  creates : List ContactsDraft
  patches : List ContactsPatch
deriving DecidableEq, Repr

/-- `ContactsMutateRequest` from the header: target refs and an ordered op
list. -/
structure ContactsMutateRequest where
  refs : List ContactsRef
  ops : List ContactsMutationOp
deriving DecidableEq, Repr

/-- `ContactsGroupsRequest` from the header. -/
structure ContactsGroupsRequest where
  action : Int
  group_id : String
  name : String
  container_id : String
deriving DecidableEq, Repr

/-! ## Patch Merger

Modelled from the spec: the implementations behind `contacts_upsert` are not
under `src/` (the header only declares the entry point), so the Patch Merger
is modelled from spec section 4.4: scalar fields replace iff the matching
`set_*` flag is true, email/phone lists replace wholesale iff their flag is
true, and group membership becomes `(current ∪ add_group_ids) −
remove_group_ids`, applied unconditionally, with set semantics. -/

/-- Modelled from the spec: set-union of group id lists — append each id of
`add` that is not already present, preserving order and never duplicating. -/
def addGroups (cur : List String) (adds : List String) : List String :=
  adds.foldl (fun acc g => if g ∈ acc then acc else acc ++ [g]) cur

/-- Modelled from the spec: final group membership
`(current ∪ add_group_ids) − remove_group_ids`; removal is applied after
add, so an id in both lists ends up removed. -/
def applyGroups (cur adds removes : List String) : List String :=
  (addGroups cur adds).filter (fun g => decide (g ∉ removes))

/-- Modelled from the spec: the Patch Merger (spec 4.4).  Computes the new
contact state from the current record and a sparse patch. -/
def applyPatch (c : ContactsContact) (p : ContactsPatch) : ContactsContact :=
  { ref := c.ref
    given_name := if p.set_given_name then p.given_name else c.given_name
    family_name := if p.set_family_name then p.family_name else c.family_name
    middle_name := if p.set_middle_name then p.middle_name else c.middle_name
    nickname := if p.set_nickname then p.nickname else c.nickname
    organization := if p.set_organization then p.organization else c.organization
    job_title := if p.set_job_title then p.job_title else c.job_title
    emails := if p.set_emails then p.replace_emails else c.emails
    phones := if p.set_phones then p.replace_phones else c.phones
    group_ids := applyGroups c.group_ids p.add_group_ids p.remove_group_ids
    modified_at_unix := c.modified_at_unix }

/-! ## Filter Evaluator

Modelled from the spec: the body of `contacts_find` is not under `src/`;
spec section 4.1 defines the per-predicate checks, the present/absent rule,
and the ALL/ANY combination. -/

/-- Modelled from the spec: case-insensitive substring test, on character
lists. -/
def charsContain (hay needle : List Char) : Bool :=
  match hay with
  | [] => needle.isEmpty
  | _ :: t => needle.isPrefixOf hay || charsContain t needle

/-- Modelled from the spec: case-insensitive substring test on strings. -/
def strContains (hay needle : String) : Bool :=
  charsContain hay.toLower.toList needle.toLower.toList

/-- Modelled from the spec: the domain portion (after the `@`) of an email
value; empty when no `@` is present. -/
def emailDomain (v : String) : String :=
  match v.splitOn "@" with
  | [] => ""
  | [_] => ""
  | parts => parts.getLastD ""

/-- Modelled from the spec: the list of evaluated checks for the predicates
that are present in the request; an absent predicate contributes nothing. -/
def presentChecks (req : ContactsFindRequest) (c : ContactsContact) : List Bool :=
  (match req.name_contains with
   | none => []
   | some s => [strContains (c.given_name ++ c.family_name ++ c.nickname) s]) ++
  (match req.organization_contains with
   | none => []
   | some s => [strContains c.organization s]) ++
  (match req.email_domain with
   | none => []
   | some d => [c.emails.any (fun e => (emailDomain e.value).toLower == d.toLower)]) ++
  (if req.group_ids_any.isEmpty then []
   else [req.group_ids_any.any (fun g => c.group_ids.contains g)]) ++
  (if req.ids.isEmpty then []
   else [req.ids.contains c.ref.id])

/-- Modelled from the spec: the Filter Evaluator (spec 4.1).  `ALL` requires
every present predicate to hold; `ANY` requires at least one present
predicate to hold. -/
def contactMatches (req : ContactsFindRequest) (c : ContactsContact) : Bool :=
  if req.match_policy == CONTACTS_MATCH_ANY then
    (presentChecks req c).any id
  else
    (presentChecks req c).all id

/-! ## Sort & Paginate

Modelled from the spec: `contacts_find`'s pagination (spec 4.2) over the
already-sorted matched set.  The no-further-page sentinel is `-1`. -/

/-- Modelled from the spec: apply `offset` (skip) and `limit` (take) to the
sorted matched set, returning the page and `next_offset`.  `limit <= 0` or
`offset` at or beyond the result size yields an empty page with the `-1`
sentinel; otherwise `next_offset = offset + returned_count` when more items
remain, else `-1`. -/
def paginate (xs : List α) (limit offset : Int) : List α × Int :=
  if limit ≤ 0 ∨ (xs.length : Int) ≤ offset then ([], -1)
  else
    let page := (xs.drop offset.toNat).take limit.toNat
    let next := offset + page.length
    if next < (xs.length : Int) then (page, next) else (page, -1)

/-! ## Field Projector

Modelled from the spec: the body of `contacts_get` is not under `src/`; spec
section 4.3 defines the projection of a full contact through a field mask. -/

/-- Whether `bit` is set in the field mask. -/
def maskHas (mask bit : Nat) : Bool := mask &&& bit != 0

/-- Modelled from the spec: the Field Projector (spec 4.3).  Sections not
covered by the mask are cleared to empty strings / empty lists; the
reference and the last-modified timestamp are always populated. -/
def projectContact (mask : Nat) (c : ContactsContact) : ContactsContact :=
  { ref := c.ref
    given_name := if maskHas mask CONTACTS_FIELD_NAMES then c.given_name else ""
    family_name := if maskHas mask CONTACTS_FIELD_NAMES then c.family_name else ""
    middle_name := if maskHas mask CONTACTS_FIELD_NAMES then c.middle_name else ""
    nickname := if maskHas mask CONTACTS_FIELD_NAMES then c.nickname else ""
    organization := if maskHas mask CONTACTS_FIELD_ORGANIZATION then c.organization else ""
    job_title := if maskHas mask CONTACTS_FIELD_ORGANIZATION then c.job_title else ""
    emails := if maskHas mask CONTACTS_FIELD_EMAILS then c.emails else []
    phones := if maskHas mask CONTACTS_FIELD_PHONES then c.phones else []
    group_ids := if maskHas mask CONTACTS_FIELD_GROUPS then c.group_ids else []
    modified_at_unix := c.modified_at_unix }

/-! ## The Directory collaborator and result constructors

Modelled from the spec: the external Directory store (spec section 6) is
modelled as an association list of records keyed by reference id, plus the
group table and a counter for generated ids. -/

/-- Modelled from the spec: the Directory collaborator's state. -/
structure Directory where
  recs : List (String × ContactsContact)
  groups : List ContactsGroup
  nextId : Nat
deriving DecidableEq, Repr

/-- Look a record up by reference id. -/
def Directory.find (dir : Directory) (id : String) : Option ContactsContact :=
  dir.recs.lookup id

/-- Replace the record stored under `id`. -/
def Directory.write (dir : Directory) (id : String) (c : ContactsContact) : Directory :=
  { dir with recs := dir.recs.map (fun kv => if kv.1 == id then (kv.1, c) else kv) }

/-- Remove the record stored under `id`. -/
def Directory.erase (dir : Directory) (id : String) : Directory :=
  { dir with recs := dir.recs.filter (fun kv => kv.1 != id) }

/-- A fully successful creation outcome. -/
def okCreated (r : ContactsRef) : ContactsWriteResult :=
  { ref := r, succeeded := true, created := true, updated := false
    error_code := CONTACTS_ERR_NONE, error_message := none }

/-- A fully successful existing-record write outcome. -/
def okUpdated (r : ContactsRef) : ContactsWriteResult :=
  { ref := r, succeeded := true, created := false, updated := true
    error_code := CONTACTS_ERR_NONE, error_message := none }

/-- A failed per-item outcome carrying a typed error. -/
def errResult (r : ContactsRef) (code : Int) (msg : String) : ContactsWriteResult :=
  { ref := r, succeeded := false, created := false, updated := false
    error_code := code, error_message := some msg }

/-! ## Batch Result Aggregator

Modelled from the spec: spec section 4.6 — a pure fold over items, invoking
the per-item operation and collecting one outcome per item in input order,
never letting one item's failure stop the rest.  Implemented once and reused
by upsert, mutate and groups. -/

/-- Modelled from the spec: the Batch Result Aggregator (spec 4.6). -/
def runBatch (f : Directory → α → ContactsWriteResult × Directory) :
    Directory → List α → List ContactsWriteResult × Directory
  | d, [] => ([], d)
  | d, x :: xs =>
    ((f d x).1 :: (runBatch f (f d x).2 xs).1, (runBatch f (f d x).2 xs).2)

/-! ## Upsert

Modelled from the spec: `contacts_upsert` processes the drafts first, then
the patches, one WriteResult each, in input order (spec 3, 4.4, 4.6). -/

/-- Modelled from the spec: create one draft through the Directory,
generating a fresh reference id. -/
def applyDraft (dir : Directory) (d : ContactsDraft) : ContactsWriteResult × Directory :=
  let id := "id-" ++ toString dir.nextId
  let r : ContactsRef := { id := id, container_id := d.container_id, account_id := "" }
  let c : ContactsContact :=
    { ref := r
      given_name := d.given_name, family_name := d.family_name
      middle_name := d.middle_name, nickname := d.nickname
      organization := d.organization, job_title := d.job_title
      emails := d.emails, phones := d.phones
      group_ids := d.group_ids, modified_at_unix := 0 }
  (okCreated r, { dir with recs := dir.recs ++ [(id, c)], nextId := dir.nextId + 1 })

/-- Modelled from the spec: apply one patch — `NotFound` when the reference
does not resolve, otherwise merge via the Patch Merger and write back. -/
def applyPatchItem (dir : Directory) (p : ContactsPatch) : ContactsWriteResult × Directory :=
  match dir.find p.ref.id with
  | none => (errResult p.ref CONTACTS_ERR_NOT_FOUND "record not found", dir)
  | some c => (okUpdated p.ref, dir.write p.ref.id (applyPatch c p))

/-- Modelled from the spec: `contacts_upsert` — drafts first, then patches,
each batch run through the aggregator. -/
def contacts_upsert (dir : Directory) (req : ContactsUpsertRequest) :
    List ContactsWriteResult × Directory :=
  ((runBatch applyDraft dir req.creates).1 ++
     (runBatch applyPatchItem (runBatch applyDraft dir req.creates).2 req.patches).1,
   (runBatch applyPatchItem (runBatch applyDraft dir req.creates).2 req.patches).2)

/-! ## Mutation Sequencer

Modelled from the spec: `contacts_mutate` (spec 4.5) applies the whole
ordered op list to each target reference independently, atomically per
target; a delete op is terminal (later ops are skipped as already
satisfied); an unrecognized op type fails that reference with `Validation`. -/

/-- The per-reference interpreter state: still active with a pending contact
state, already deleted (terminal, success), or failed with an error code
(terminal). -/
inductive MutStatus where
  | active (c : ContactsContact)
  | deleted
  | failed (code : Int)
deriving DecidableEq, Repr

/-- Modelled from the spec: apply one mutation op to an active contact
state. -/
def applyOp (c : ContactsContact) (op : ContactsMutationOp) : MutStatus :=
  if op.type == CONTACTS_MUTATION_SET_ORGANIZATION then
    .active { c with organization := op.value }
  else if op.type == CONTACTS_MUTATION_SET_JOB_TITLE then
    .active { c with job_title := op.value }
  else if op.type == CONTACTS_MUTATION_SET_GIVEN_NAME then
    .active { c with given_name := op.value }
  else if op.type == CONTACTS_MUTATION_SET_FAMILY_NAME then
    .active { c with family_name := op.value }
  else if op.type == CONTACTS_MUTATION_ADD_TO_GROUP then
    .active { c with group_ids := addGroups c.group_ids [op.value] }
  else if op.type == CONTACTS_MUTATION_REMOVE_FROM_GROUP then
    .active { c with group_ids := c.group_ids.filter (fun g => g != op.value) }
  else if op.type == CONTACTS_MUTATION_DELETE then
    .deleted
  else
    .failed CONTACTS_ERR_VALIDATION

/-- Modelled from the spec: run the ordered op list over one reference's
interpreter state; `deleted` skips remaining ops as already satisfied, and a
failure is terminal. -/
def runOps : MutStatus → List ContactsMutationOp → MutStatus
  | st, [] => st
  | .active c, op :: rest => runOps (applyOp c op) rest
  | .deleted, _ :: rest => runOps .deleted rest
  | .failed e, _ :: rest => runOps (.failed e) rest

/-- Modelled from the spec: process one target reference — resolve it,
interpret the whole op sequence, then commit the single resulting write or
delete (atomic per target); one WriteResult per reference. -/
def mutateRef (ops : List ContactsMutationOp) (dir : Directory) (r : ContactsRef) :
    ContactsWriteResult × Directory :=
  match dir.find r.id with
  | none => (errResult r CONTACTS_ERR_NOT_FOUND "record not found", dir)
  | some c =>
    match runOps (.active c) ops with
    | .active c1 => (okUpdated r, dir.write r.id c1)
    | .deleted => (okUpdated r, dir.erase r.id)
    | .failed e => (errResult r e "mutation failed", dir)

/-- Modelled from the spec: `contacts_mutate` — the aggregator over the
target references, each receiving the entire op sequence. -/
def contacts_mutate (dir : Directory) (req : ContactsMutateRequest) :
    List ContactsWriteResult × Directory :=
  runBatch (mutateRef req.ops) dir req.refs

/-! ## Group Manager

Modelled from the spec: `contacts_groups` (spec 4.7) — list/create/rename/
delete group entities, routed through the aggregator for the uniform
WriteResult shape (group actions are 1-in-1-out). -/

/-- The groups response: the listed groups plus the write results. -/
structure GroupsOutcome where
  groups : List ContactsGroup
  results : List ContactsWriteResult
deriving DecidableEq, Repr

/-- Modelled from the spec: the reference shape used in group write
results. -/
def groupRef (id container : String) : ContactsRef :=
  { id := id, container_id := container, account_id := "" }

/-- Modelled from the spec: `contacts_groups`.  `list` returns all groups in
the container (all groups when no container is given); `create` adds a group
with a generated id; `rename` updates the name by id (`NotFound` if absent);
`delete` removes the group and drops its id from every contact's membership;
an unrecognized action is a `Validation` failure for the single item. -/
def contacts_groups (dir : Directory) (req : ContactsGroupsRequest) :
    GroupsOutcome × Directory :=
  if req.action == CONTACTS_GROUPS_LIST then
    (⟨(if req.container_id == "" then dir.groups
       else dir.groups.filter (fun g => g.container_id == req.container_id)), []⟩, dir)
  else if req.action == CONTACTS_GROUPS_CREATE then
    let id := "grp-" ++ toString dir.nextId
    let g : ContactsGroup :=
      { id := id, container_id := req.container_id, account_id := "", name := req.name }
    (⟨[], [okCreated (groupRef id req.container_id)]⟩,
      { dir with groups := dir.groups ++ [g], nextId := dir.nextId + 1 })
  else if req.action == CONTACTS_GROUPS_RENAME then
    if dir.groups.any (fun g => g.id == req.group_id) then
      (⟨[], [okUpdated (groupRef req.group_id req.container_id)]⟩,
        { dir with groups := dir.groups.map (fun g =>
            if g.id == req.group_id then { g with name := req.name } else g) })
    else
      (⟨[], [errResult (groupRef req.group_id req.container_id)
              CONTACTS_ERR_NOT_FOUND "group not found"]⟩, dir)
  else if req.action == CONTACTS_GROUPS_DELETE then
    if dir.groups.any (fun g => g.id == req.group_id) then
      (⟨[], [okUpdated (groupRef req.group_id req.container_id)]⟩,
        { dir with
            groups := dir.groups.filter (fun g => g.id != req.group_id)
            recs := dir.recs.map (fun kv =>
              (kv.1, { kv.2 with
                group_ids := kv.2.group_ids.filter (fun g => g != req.group_id) })) })
    else
      (⟨[], [errResult (groupRef req.group_id req.container_id)
              CONTACTS_ERR_NOT_FOUND "group not found"]⟩, dir)
  else
    (⟨[], [errResult (groupRef req.group_id req.container_id)
            CONTACTS_ERR_VALIDATION "unrecognized groups action"]⟩, dir)

/-- The non-zero enumerated error codes of the header. -/
def nonzeroErrorCodes : List Int :=
  [CONTACTS_ERR_PERMISSION_DENIED, CONTACTS_ERR_NOT_FOUND, CONTACTS_ERR_CONFLICT,
   CONTACTS_ERR_VALIDATION, CONTACTS_ERR_STORE, CONTACTS_ERR_UNKNOWN]

/-- Well-formedness of one `ContactsWriteResult`: success carries no error
code or message, failure carries one of the enumerated non-zero codes, and
`created` and `updated` are never both set. -/
def WFResult (res : ContactsWriteResult) : Prop :=
  (res.succeeded = true → res.error_code = CONTACTS_ERR_NONE ∧ res.error_message = none) ∧
  (res.succeeded = false → res.error_code ∈ nonzeroErrorCodes) ∧
  ¬(res.created = true ∧ res.updated = true)

instance (res : ContactsWriteResult) : Decidable (WFResult res) := by
  unfold WFResult; infer_instance

/-! ## Concrete fixtures, used to instantiate the theorems -/

def sampleRef : ContactsRef := { id := "r1", container_id := "cont", account_id := "acct" }

def sampleRef2 : ContactsRef := { id := "r2", container_id := "cont", account_id := "acct" }

def missingRef : ContactsRef := { id := "nope", container_id := "cont", account_id := "acct" }

def sampleContact : ContactsContact :=
  { ref := sampleRef
    given_name := "Ada", family_name := "Lovelace", middle_name := "", nickname := ""
    organization := "Eng", job_title := "Lead"
    emails := [{ label := "work", value := "ada@eng.example" }]
    phones := [], group_ids := ["g1"], modified_at_unix := 10 }

def sampleContact2 : ContactsContact :=
  { ref := sampleRef2
    given_name := "Grace", family_name := "Hopper", middle_name := "", nickname := ""
    organization := "Navy", job_title := "Admiral"
    emails := [], phones := [], group_ids := [], modified_at_unix := 20 }

def sampleDir : Directory :=
  { recs := [("r1", sampleContact), ("r2", sampleContact2)]
    groups := [{ id := "g1", container_id := "cont", account_id := "acct", name := "Team" }]
    nextId := 0 }

/-- A patch with every `set_*` flag false and empty group lists, but with
garbage accompanying values: the flags alone must make it a no-op. -/
def noopPatch : ContactsPatch :=
  { ref := sampleRef
    set_given_name := false, given_name := "garbage"
    set_family_name := false, family_name := "garbage"
    set_middle_name := false, middle_name := "garbage"
    set_nickname := false, nickname := "garbage"
    set_organization := false, organization := "garbage"
    set_job_title := false, job_title := "garbage"
    set_emails := false, replace_emails := [{ label := "x", value := "y" }]
    set_phones := false, replace_phones := [{ label := "x", value := "y" }]
    add_group_ids := [], remove_group_ids := [] }

/-- A patch targeting a reference that does not resolve in `sampleDir`. -/
def missingPatch : ContactsPatch := { noopPatch with ref := missingRef }

/-- A find request with no predicate present. -/
def emptyFind (policy : Int) : ContactsFindRequest :=
  { name_contains := none, organization_contains := none, email_domain := none
    group_ids_any := [], ids := [], match_policy := policy
    limit := 10, offset := 0, include_meta := false
    sort_by := CONTACTS_SORT_GIVEN_NAME, sort_order := CONTACTS_SORT_ASC }

def sampleDraft : ContactsDraft :=
  { container_id := "cont"
    given_name := "Alan", family_name := "Turing", middle_name := "", nickname := ""
    organization := "Bletchley", job_title := ""
    emails := [], phones := [], group_ids := [] }

/-! ## Lemmas about the group-membership set operations -/

theorem addGroups_nil (cur : List String) : addGroups cur [] = cur := rfl

theorem addGroups_cons (cur : List String) (a : String) (as : List String) :
    addGroups cur (a :: as) = addGroups (if a ∈ cur then cur else cur ++ [a]) as := rfl

theorem mem_addGroups (adds : List String) (cur : List String) (g : String) :
    g ∈ addGroups cur adds ↔ g ∈ cur ∨ g ∈ adds := by
  induction adds generalizing cur with
  | nil => simp [addGroups_nil]
  | cons a as ih =>
    rw [addGroups_cons]
    by_cases h : a ∈ cur
    · rw [if_pos h, ih]
      simp only [List.mem_cons]
      constructor
      · rintro (hc | hs)
        · exact Or.inl hc
        · exact Or.inr (Or.inr hs)
      · rintro (hc | rfl | hs)
        · exact Or.inl hc
        · exact Or.inl h
        · exact Or.inr hs
    · rw [if_neg h, ih]
      simp only [List.mem_append, List.mem_singleton, List.mem_cons]
      tauto

theorem addGroups_eq_append (adds : List String) (cur : List String) :
    ∃ ext, addGroups cur adds = cur ++ ext ∧ ∀ g ∈ ext, g ∈ adds ∧ g ∉ cur := by
  induction adds generalizing cur with
  | nil => exact ⟨[], by simp [addGroups_nil], by simp⟩
  | cons a as ih =>
    rw [addGroups_cons]
    by_cases h : a ∈ cur
    · rw [if_pos h]
      obtain ⟨ext, he, hmem⟩ := ih cur
      exact ⟨ext, he, fun g hg =>
        ⟨List.mem_cons_of_mem a (hmem g hg).1, (hmem g hg).2⟩⟩
    · rw [if_neg h]
      obtain ⟨ext, he, hmem⟩ := ih (cur ++ [a])
      refine ⟨a :: ext, by simpa using he, ?_⟩
      intro g hg
      rcases List.mem_cons.mp hg with rfl | hg2
      · exact ⟨List.mem_cons_self g as, h⟩
      · have h2 := hmem g hg2
        refine ⟨List.mem_cons_of_mem a h2.1, fun hc => h2.2 ?_⟩
        exact List.mem_append.mpr (Or.inl hc)

theorem addGroups_eq_self (adds : List String) (cur : List String)
    (h : ∀ g ∈ adds, g ∈ cur) : addGroups cur adds = cur := by
  induction adds generalizing cur with
  | nil => exact addGroups_nil cur
  | cons a as ih =>
    rw [addGroups_cons, if_pos (h a (List.mem_cons_self a as))]
    exact ih cur fun g hg => h g (List.mem_cons_of_mem a hg)

theorem addGroups_nodup (adds : List String) (cur : List String)
    (h : cur.Nodup) : (addGroups cur adds).Nodup := by
  induction adds generalizing cur with
  | nil => exact h
  | cons a as ih =>
    rw [addGroups_cons]
    by_cases ha : a ∈ cur
    · rw [if_pos ha]; exact ih cur h
    · rw [if_neg ha]
      refine ih (cur ++ [a]) ?_
      rw [List.nodup_append]
      exact ⟨h, List.nodup_singleton a, fun x hx hxa => ha (by
        rw [List.mem_singleton] at hxa; rwa [hxa] at hx)⟩

theorem mem_applyGroups (cur adds removes : List String) (g : String) :
    g ∈ applyGroups cur adds removes ↔ (g ∈ cur ∨ g ∈ adds) ∧ g ∉ removes := by
  simp [applyGroups, List.mem_filter, mem_addGroups]

theorem applyGroups_nodup (cur adds removes : List String)
    (h : cur.Nodup) : (applyGroups cur adds removes).Nodup :=
  List.Nodup.filter _ (addGroups_nodup adds cur h)

theorem applyGroups_nil_nil (cur : List String) : applyGroups cur [] [] = cur := by
  unfold applyGroups
  rw [addGroups_nil]
  exact List.filter_eq_self.mpr fun a _ => by simp

theorem applyGroups_noop (cur adds removes : List String)
    (hadd : ∀ g ∈ adds, g ∈ cur) (hrem : ∀ g ∈ removes, g ∉ cur) :
    applyGroups cur adds removes = cur := by
  unfold applyGroups
  rw [addGroups_eq_self adds cur hadd]
  exact List.filter_eq_self.mpr fun a ha => by
    simp only [decide_eq_true_eq]
    exact fun hr => hrem a hr ha

theorem applyGroups_idem (cur adds removes : List String) :
    applyGroups (applyGroups cur adds removes) adds removes =
      applyGroups cur adds removes := by
  set s := applyGroups cur adds removes with hs
  have hs_not_rem : ∀ g ∈ s, g ∉ removes := fun g hg =>
    ((mem_applyGroups cur adds removes g).mp hg).2
  obtain ⟨ext, he, hmem⟩ := addGroups_eq_append adds s
  unfold applyGroups
  rw [he, List.filter_append]
  have h1 : s.filter (fun g => decide (g ∉ removes)) = s :=
    List.filter_eq_self.mpr fun a ha => decide_eq_true (hs_not_rem a ha)
  have h2 : ext.filter (fun g => decide (g ∉ removes)) = [] := by
    refine List.filter_eq_nil_iff.mpr fun a ha => ?_
    simp only [decide_eq_true_eq, not_not]
    by_contra hnr
    have hmem_add : a ∈ addGroups cur adds :=
      (mem_addGroups adds cur a).mpr (Or.inr (hmem a ha).1)
    exact (hmem a ha).2 (by
      rw [hs]
      unfold applyGroups
      exact List.mem_filter.mpr ⟨hmem_add, decide_eq_true hnr⟩)
  rw [h1, h2, List.append_nil]

/-! ## Lemmas about the Batch Result Aggregator -/

theorem runBatch_nil (f : Directory → α → ContactsWriteResult × Directory)
    (d : Directory) : runBatch f d [] = ([], d) := rfl

theorem runBatch_cons (f : Directory → α → ContactsWriteResult × Directory)
    (d : Directory) (x : α) (xs : List α) :
    runBatch f d (x :: xs) =
      ((f d x).1 :: (runBatch f (f d x).2 xs).1, (runBatch f (f d x).2 xs).2) := rfl

theorem runBatch_length (f : Directory → α → ContactsWriteResult × Directory)
    (d : Directory) (xs : List α) :
    ((runBatch f d xs).1).length = xs.length := by
  induction xs generalizing d with
  | nil => rfl
  | cons x xs ih => rw [runBatch_cons]; simp [ih]

theorem runBatch_append (f : Directory → α → ContactsWriteResult × Directory)
    (d : Directory) (xs ys : List α) :
    runBatch f d (xs ++ ys) =
      ((runBatch f d xs).1 ++ (runBatch f (runBatch f d xs).2 ys).1,
       (runBatch f (runBatch f d xs).2 ys).2) := by
  induction xs generalizing d with
  | nil => simp [runBatch_nil]
  | cons x xs ih => simp [runBatch_cons, ih]

theorem runBatch_map_ref (f : Directory → α → ContactsWriteResult × Directory)
    (key : α → ContactsRef) (hf : ∀ d x, ((f d x).1).ref = key x)
    (d : Directory) (xs : List α) :
    ((runBatch f d xs).1).map (fun res => res.ref) = xs.map key := by
  induction xs generalizing d with
  | nil => rfl
  | cons x xs ih => rw [runBatch_cons]; simp [hf, ih]

theorem runBatch_mem (f : Directory → α → ContactsWriteResult × Directory)
    (d : Directory) (xs : List α) (res : ContactsWriteResult)
    (h : res ∈ (runBatch f d xs).1) : ∃ d1 x, x ∈ xs ∧ res = (f d1 x).1 := by
  induction xs generalizing d with
  | nil => simp [runBatch_nil] at h
  | cons x xs ih =>
    rw [runBatch_cons] at h
    rcases List.mem_cons.mp h with h1 | h2
    · exact ⟨d, x, List.mem_cons_self x xs, h1⟩
    · obtain ⟨d1, y, hy, hr⟩ := ih (f d x).2 h2
      exact ⟨d1, y, List.mem_cons_of_mem x hy, hr⟩

/-! ## Lemmas about the Mutation Sequencer interpreter -/

theorem runOps_deleted (ops : List ContactsMutationOp) :
    runOps .deleted ops = .deleted := by
  induction ops with
  | nil => rfl
  | cons op rest ih => rw [runOps]; exact ih

theorem runOps_failed (e : Int) (ops : List ContactsMutationOp) :
    runOps (.failed e) ops = .failed e := by
  induction ops with
  | nil => rfl
  | cons op rest ih => rw [runOps]; exact ih

theorem runOps_append (st : MutStatus) (xs ys : List ContactsMutationOp) :
    runOps st (xs ++ ys) = runOps (runOps st xs) ys := by
  induction xs generalizing st with
  | nil => cases st <;> rfl
  | cons x xs ih =>
    cases st with
    | active c => rw [List.cons_append, runOps, runOps, ih]
    | deleted => rw [List.cons_append, runOps, runOps, ih]
    | failed e => rw [List.cons_append, runOps, runOps, ih]

theorem applyOp_failed_code (c : ContactsContact) (op : ContactsMutationOp)
    (e : Int) (h : applyOp c op = .failed e) : e = CONTACTS_ERR_VALIDATION := by
  unfold applyOp at h
  repeat' split at h
  all_goals simp_all

theorem applyOp_unrecognized (c : ContactsContact) (op : ContactsMutationOp)
    (h : op.type ∉ ([1, 2, 3, 4, 5, 6, 7] : List Int)) :
    applyOp c op = .failed CONTACTS_ERR_VALIDATION := by
  simp only [List.mem_cons, List.mem_singleton, not_or] at h
  unfold applyOp
  repeat' split
  all_goals simp_all [CONTACTS_MUTATION_SET_ORGANIZATION,
    CONTACTS_MUTATION_SET_JOB_TITLE, CONTACTS_MUTATION_SET_GIVEN_NAME,
    CONTACTS_MUTATION_SET_FAMILY_NAME, CONTACTS_MUTATION_ADD_TO_GROUP,
    CONTACTS_MUTATION_REMOVE_FROM_GROUP, CONTACTS_MUTATION_DELETE]

theorem runOps_active_failed (ops : List ContactsMutationOp)
    (c : ContactsContact) (e : Int)
    (h : runOps (.active c) ops = .failed e) : e = CONTACTS_ERR_VALIDATION := by
  induction ops generalizing c with
  | nil => simp [runOps] at h
  | cons op rest ih =>
    rw [runOps] at h
    rcases hop : applyOp c op with c1 | _ | e1
    · rw [hop] at h; exact ih c1 h
    · rw [hop, runOps_deleted] at h; simp at h
    · rw [hop, runOps_failed] at h
      cases h
      exact applyOp_failed_code c op e hop

/-! ## Lemmas about results and the Directory -/

theorem ite_absorb (b : Bool) (v x : α) :
    (if b then v else if b then v else x) = (if b then v else x) := by
  cases b <;> simp

theorem WF_okCreated (r : ContactsRef) : WFResult (okCreated r) := by
  simp [WFResult, okCreated]

theorem WF_okUpdated (r : ContactsRef) : WFResult (okUpdated r) := by
  simp [WFResult, okUpdated]

theorem WF_errResult (r : ContactsRef) (code : Int) (msg : String)
    (h : code ∈ nonzeroErrorCodes) : WFResult (errResult r code msg) := by
  simp [WFResult, errResult]
  exact h

theorem applyPatchItem_ref (d : Directory) (p : ContactsPatch) :
    ((applyPatchItem d p).1).ref = p.ref := by
  unfold applyPatchItem
  rcases h : d.find p.ref.id with - | c <;> simp [errResult, okUpdated]

theorem applyPatchItem_notfound (d : Directory) (p : ContactsPatch)
    (h : d.find p.ref.id = none) :
    applyPatchItem d p = (errResult p.ref CONTACTS_ERR_NOT_FOUND "record not found", d) := by
  unfold applyPatchItem
  rw [h]

theorem applyPatchItem_cases (d : Directory) (p : ContactsPatch) :
    (applyPatchItem d p).1 = errResult p.ref CONTACTS_ERR_NOT_FOUND "record not found" ∨
      (applyPatchItem d p).1 = okUpdated p.ref := by
  unfold applyPatchItem
  rcases h : d.find p.ref.id with - | c <;> simp

theorem mutateRef_ref (ops : List ContactsMutationOp) (d : Directory)
    (r : ContactsRef) : ((mutateRef ops d r).1).ref = r := by
  unfold mutateRef
  split
  · simp [errResult]
  · split <;> simp [errResult, okUpdated]

theorem mutateRef_wf (ops : List ContactsMutationOp) (d : Directory)
    (r : ContactsRef) :
    WFResult ((mutateRef ops d r).1) ∧ ((mutateRef ops d r).1).created = false := by
  unfold mutateRef
  split
  · exact ⟨WF_errResult r CONTACTS_ERR_NOT_FOUND "record not found" (by decide),
      by simp [errResult]⟩
  · split
    · exact ⟨WF_okUpdated r, by simp [okUpdated]⟩
    · exact ⟨WF_okUpdated r, by simp [okUpdated]⟩
    · rename_i e h2
      have he := runOps_active_failed _ _ _ h2
      subst he
      exact ⟨WF_errResult r CONTACTS_ERR_VALIDATION "mutation failed" (by decide),
        by simp [errResult]⟩

theorem mutateRef_failed (ops : List ContactsMutationOp) (d : Directory)
    (r : ContactsRef) (c2 : ContactsContact) (e : Int)
    (hfind : d.find r.id = some c2)
    (hfail : runOps (.active c2) ops = .failed e) :
    mutateRef ops d r = (errResult r e "mutation failed", d) := by
  unfold mutateRef
  rw [hfind]
  simp only [hfail]

theorem lookup_filter_ne (l : List (String × ContactsContact)) (id : String) :
    (l.filter (fun kv => kv.1 != id)).lookup id = none := by
  induction l with
  | nil => rfl
  | cons kv t ih =>
    rcases kv with ⟨k, v⟩
    by_cases h : k = id
    · simpa [List.filter_cons, h] using ih
    · have h2 : id ≠ k := fun hc => h hc.symm
      simp only [List.filter_cons]
      rw [if_pos (by simp [h])]
      rw [List.lookup]
      have hke : (id == k) = false := by
        simp only [beq_eq_false_iff_ne, ne_eq]
        exact h2
      rw [hke]
      exact ih

theorem Directory.find_erase (dir : Directory) (id : String) :
    (dir.erase id).find id = none := by
  unfold Directory.erase Directory.find
  exact lookup_filter_ne dir.recs id

/-! ## Claim theorems -/

/-- C2: for every FindRequest in which no filter predicate is present, the
Filter Evaluator with `match_policy = ALL` returns `matches = true` for
every candidate Contact, and with `match_policy = ANY` returns
`matches = false` for every candidate Contact: the empty conjunction is
vacuously true and the empty disjunction is vacuously false. -/
theorem find_vacuous_policies (req : ContactsFindRequest) (c : ContactsContact)
    (h1 : req.name_contains = none) (h2 : req.organization_contains = none)
    (h3 : req.email_domain = none) (h4 : req.group_ids_any = [])
    (h5 : req.ids = []) :
    (req.match_policy = CONTACTS_MATCH_ALL → contactMatches req c = true) ∧
    (req.match_policy = CONTACTS_MATCH_ANY → contactMatches req c = false) := by
  have hp : presentChecks req c = [] := by
    simp [presentChecks, h1, h2, h3, h4, h5]
  constructor <;> intro hm <;>
    simp [contactMatches, hp, hm, CONTACTS_MATCH_ALL, CONTACTS_MATCH_ANY]

theorem find_vacuous_policies_witness :
    contactMatches (emptyFind CONTACTS_MATCH_ALL) sampleContact = true ∧
    contactMatches (emptyFind CONTACTS_MATCH_ANY) sampleContact = false :=
  ⟨(find_vacuous_policies (emptyFind CONTACTS_MATCH_ALL) sampleContact
      rfl rfl rfl rfl rfl).1 rfl,
   (find_vacuous_policies (emptyFind CONTACTS_MATCH_ANY) sampleContact
      rfl rfl rfl rfl rfl).2 rfl⟩

/-- C3: a Patch whose `set_*` flags are all false and whose add/remove group
lists are both empty is an identity: the Patch Merger returns the current
Contact unchanged, regardless of the accompanying values — the flags alone
determine which fields change. -/
theorem patch_noop_identity (c : ContactsContact) (p : ContactsPatch)
    (h1 : p.set_given_name = false) (h2 : p.set_family_name = false)
    (h3 : p.set_middle_name = false) (h4 : p.set_nickname = false)
    (h5 : p.set_organization = false) (h6 : p.set_job_title = false)
    (h7 : p.set_emails = false) (h8 : p.set_phones = false)
    (h9 : p.add_group_ids = []) (h10 : p.remove_group_ids = []) :
    applyPatch c p = c := by
  simp [applyPatch, h1, h2, h3, h4, h5, h6, h7, h8, h9, h10,
    applyGroups_nil_nil]

theorem patch_noop_identity_witness : applyPatch sampleContact noopPatch = sampleContact :=
  patch_noop_identity sampleContact noopPatch
    rfl rfl rfl rfl rfl rfl rfl rfl rfl rfl

/-- C4: applying the same Patch twice in succession yields the same final
Contact as applying it once — idempotence holds for the scalar replace
fields, the whole-list email/phone replacement, and the add/remove
group-membership lists (set semantics). -/
theorem patch_idempotent (c : ContactsContact) (p : ContactsPatch) :
    applyPatch (applyPatch c p) p = applyPatch c p := by
  simp [applyPatch, ite_absorb, applyGroups_idem]

/-- C5: the Patch Merger computes the final group membership as
`(current ∪ add_group_ids) − remove_group_ids`, unconditionally (for every
patch, independent of every `set_*` flag); removal wins for an id in both
lists; membership keeps set semantics (no duplicates introduced), and
adding a present id or removing an absent id is a no-op, not an error. -/
theorem patch_group_set_semantics (cur adds removes : List String)
    (g : String) (c : ContactsContact) (p : ContactsPatch) :
    (g ∈ applyGroups cur adds removes ↔ (g ∈ cur ∨ g ∈ adds) ∧ g ∉ removes) ∧
    (applyPatch c p).group_ids =
      applyGroups c.group_ids p.add_group_ids p.remove_group_ids ∧
    (g ∈ adds → g ∈ removes → g ∉ applyGroups cur adds removes) ∧
    (cur.Nodup → (applyGroups cur adds removes).Nodup) ∧
    ((∀ x ∈ adds, x ∈ cur) → (∀ x ∈ removes, x ∉ cur) →
      applyGroups cur adds removes = cur) := by
  refine ⟨mem_applyGroups cur adds removes g, rfl, ?_, applyGroups_nodup cur adds removes,
    applyGroups_noop cur adds removes⟩
  intro _ hr hmem
  exact ((mem_applyGroups cur adds removes g).mp hmem).2 hr

theorem patch_group_set_semantics_witness :
    applyGroups ["g1", "g2"] ["g2"] ["zz"] = ["g1", "g2"] :=
  (patch_group_set_semantics ["g1", "g2"] ["g2"] ["zz"] "g2"
      sampleContact noopPatch).2.2.2.2 (by decide) (by decide)

/-- C8: pagination over the sorted matched set.  `limit <= 0` or `offset`
at or beyond the result size yields an empty page with the `-1`
no-further-page sentinel, not an error; otherwise the page is the
offset-skip/limit-take slice with `next_offset = offset + returned_count`
when more items remain and the sentinel otherwise; and consecutive pages
(limit 2 at offsets 0, 2, 4 over a 5-item set) never overlap and together
cover the matched set in order. -/
theorem find_pagination (xs : List α) (limit offset : Int) (a b c d e : α) :
    (limit ≤ 0 → paginate xs limit offset = ([], -1)) ∧
    ((xs.length : Int) ≤ offset → paginate xs limit offset = ([], -1)) ∧
    (0 < limit → 0 ≤ offset → offset < (xs.length : Int) →
      paginate xs limit offset =
        ((xs.drop offset.toNat).take limit.toNat,
         if offset + (((xs.drop offset.toNat).take limit.toNat).length : Int) <
             (xs.length : Int)
         then offset + (((xs.drop offset.toNat).take limit.toNat).length : Int)
         else -1)) ∧
    (paginate [a, b, c, d, e] 2 0 = ([a, b], 2) ∧
     paginate [a, b, c, d, e] 2 2 = ([c, d], 4) ∧
     paginate [a, b, c, d, e] 2 4 = ([e], -1) ∧
     [a, b] ++ [c, d] ++ [e] = [a, b, c, d, e]) := by
  refine ⟨fun h => ?_, fun h => ?_, fun h1 h2 h3 => ?_, ?_⟩
  · unfold paginate
    rw [if_pos (Or.inl h)]
  · unfold paginate
    rw [if_pos (Or.inr h)]
  · unfold paginate
    rw [if_neg (by simp only [not_or, not_le]; exact ⟨h1, h3⟩)]
    split
    · rename_i h4
      rw [if_pos h4]
    · rename_i h4
      rw [if_neg h4]
  · exact ⟨rfl, rfl, rfl, rfl⟩

theorem find_pagination_witness :
    paginate ([1, 2, 3] : List Nat) 0 5 = ([], -1) :=
  (find_pagination [1, 2, 3] 0 5 1 1 1 1 1).1 (by norm_num)

/-- C9: the Field Projector always populates the Reference and the
last-modified timestamp, clears every section not covered by the mask
(names, organization, emails, phones, groups) to empty strings / empty
lists, and keeps masked-in sections equal to the source Contact's; the
projection is a pure function of the source record, which it leaves
unchanged. -/
theorem get_field_projection (mask : Nat) (c : ContactsContact) :
    (projectContact mask c).ref = c.ref ∧
    (projectContact mask c).modified_at_unix = c.modified_at_unix ∧
    (maskHas mask CONTACTS_FIELD_NAMES = false →
      (projectContact mask c).given_name = "" ∧
      (projectContact mask c).family_name = "" ∧
      (projectContact mask c).middle_name = "" ∧
      (projectContact mask c).nickname = "") ∧
    (maskHas mask CONTACTS_FIELD_NAMES = true →
      (projectContact mask c).given_name = c.given_name ∧
      (projectContact mask c).family_name = c.family_name ∧
      (projectContact mask c).middle_name = c.middle_name ∧
      (projectContact mask c).nickname = c.nickname) ∧
    (maskHas mask CONTACTS_FIELD_ORGANIZATION = false →
      (projectContact mask c).organization = "" ∧
      (projectContact mask c).job_title = "") ∧
    (maskHas mask CONTACTS_FIELD_ORGANIZATION = true →
      (projectContact mask c).organization = c.organization ∧
      (projectContact mask c).job_title = c.job_title) ∧
    (maskHas mask CONTACTS_FIELD_EMAILS = false →
      (projectContact mask c).emails = []) ∧
    (maskHas mask CONTACTS_FIELD_EMAILS = true →
      (projectContact mask c).emails = c.emails) ∧
    (maskHas mask CONTACTS_FIELD_PHONES = false →
      (projectContact mask c).phones = []) ∧
    (maskHas mask CONTACTS_FIELD_PHONES = true →
      (projectContact mask c).phones = c.phones) ∧
    (maskHas mask CONTACTS_FIELD_GROUPS = false →
      (projectContact mask c).group_ids = []) ∧
    (maskHas mask CONTACTS_FIELD_GROUPS = true →
      (projectContact mask c).group_ids = c.group_ids) := by
  refine ⟨rfl, rfl, ?_, ?_, ?_, ?_, ?_, ?_, ?_, ?_, ?_, ?_⟩ <;>
    intro h <;> simp [projectContact, h]

theorem get_field_projection_witness :
    (projectContact 6 sampleContact).given_name = "" ∧
    (projectContact 6 sampleContact).organization = sampleContact.organization ∧
    (projectContact 6 sampleContact).emails = sampleContact.emails ∧
    (projectContact 6 sampleContact).phones = [] ∧
    (projectContact 6 sampleContact).group_ids = [] ∧
    (projectContact 6 sampleContact).ref = sampleContact.ref :=
  ⟨((get_field_projection 6 sampleContact).2.2.1 (by decide)).1,
   ((get_field_projection 6 sampleContact).2.2.2.2.2.1 (by decide)).1,
   (get_field_projection 6 sampleContact).2.2.2.2.2.2.2.1 (by decide),
   (get_field_projection 6 sampleContact).2.2.2.2.2.2.2.2.1 (by decide),
   (get_field_projection 6 sampleContact).2.2.2.2.2.2.2.2.2.2.1 (by decide),
   (get_field_projection 6 sampleContact).1⟩

/-- C6: the Mutation Sequencer applies the whole ordered op sequence to each
target Reference independently, producing exactly one WriteResult per
Reference (not per op); once a delete op is reached for a Reference, all
subsequent ops are skipped as already satisfied (appending further ops does
not change that Reference's outcome) and its WriteResult still shows
success; the record is then gone from the Directory, so a later get finds
nothing. -/
theorem mutate_delete_terminal (dir : Directory) (mreq : ContactsMutateRequest)
    (ops post : List ContactsMutationOp) (r : ContactsRef) (c : ContactsContact)
    (hfind : dir.find r.id = some c)
    (hdel : runOps (.active c) ops = .deleted) :
    (contacts_mutate dir mreq).1.length = mreq.refs.length ∧
    runOps MutStatus.deleted post = MutStatus.deleted ∧
    mutateRef (ops ++ post) dir r = mutateRef ops dir r ∧
    (mutateRef ops dir r).1 = okUpdated r ∧
    (mutateRef ops dir r).1.succeeded = true ∧
    (mutateRef ops dir r).1.error_code = CONTACTS_ERR_NONE ∧
    ((mutateRef ops dir r).2).find r.id = none := by
  have hstep : mutateRef ops dir r = (okUpdated r, dir.erase r.id) := by
    unfold mutateRef
    rw [hfind]
    simp only [hdel]
  have hstep2 : mutateRef (ops ++ post) dir r = (okUpdated r, dir.erase r.id) := by
    unfold mutateRef
    rw [hfind]
    simp only [runOps_append, hdel, runOps_deleted]
  refine ⟨runBatch_length (mutateRef mreq.ops) dir mreq.refs, runOps_deleted post,
    ?_, ?_, ?_, ?_, ?_⟩
  · rw [hstep, hstep2]
  · rw [hstep]
  · rw [hstep]; rfl
  · rw [hstep]; rfl
  · rw [hstep]
    exact Directory.find_erase dir r.id

theorem mutate_delete_terminal_witness :
    mutateRef [⟨CONTACTS_MUTATION_SET_JOB_TITLE, "Lead"⟩,
               ⟨CONTACTS_MUTATION_DELETE, ""⟩] sampleDir sampleRef =
      mutateRef [⟨CONTACTS_MUTATION_SET_JOB_TITLE, "Lead"⟩,
                 ⟨CONTACTS_MUTATION_DELETE, ""⟩,
                 ⟨CONTACTS_MUTATION_SET_ORGANIZATION, "gone"⟩] sampleDir sampleRef ∧
    (mutateRef [⟨CONTACTS_MUTATION_SET_JOB_TITLE, "Lead"⟩,
                ⟨CONTACTS_MUTATION_DELETE, ""⟩] sampleDir sampleRef).1 =
      okUpdated sampleRef :=
  ⟨((mutate_delete_terminal sampleDir ⟨[sampleRef], []⟩
      [⟨CONTACTS_MUTATION_SET_JOB_TITLE, "Lead"⟩, ⟨CONTACTS_MUTATION_DELETE, ""⟩]
      [⟨CONTACTS_MUTATION_SET_ORGANIZATION, "gone"⟩] sampleRef sampleContact
      rfl rfl).2.2.1).symm,
   (mutate_delete_terminal sampleDir ⟨[sampleRef], []⟩
      [⟨CONTACTS_MUTATION_SET_JOB_TITLE, "Lead"⟩, ⟨CONTACTS_MUTATION_DELETE, ""⟩]
      [⟨CONTACTS_MUTATION_SET_ORGANIZATION, "gone"⟩] sampleRef sampleContact
      rfl rfl).2.2.2.1⟩

/-- C7: a MutationOp whose type is not one of the recognized values makes
`applyOp` signal `Validation`; any failure reached from an active state
carries the `Validation` code; the failure is recorded in the affected
Reference's own WriteResult with the Directory left unchanged, and the
request still yields one WriteResult per Reference — the error never
escalates to a request-level failure and the sibling References' results
are computed exactly as they would be without the failing item. -/
theorem mutate_unrecognized_validation
    (c c2 : ContactsContact) (op : ContactsMutationOp) (dir : Directory)
    (r : ContactsRef) (ops : List ContactsMutationOp) (e : Int)
    (rs1 rs2 : List ContactsRef)
    (hop : op.type ∉ ([1, 2, 3, 4, 5, 6, 7] : List Int))
    (hfind : ((runBatch (mutateRef ops) dir rs1).2).find r.id = some c2)
    (hfail : runOps (.active c2) ops = .failed e) :
    applyOp c op = .failed CONTACTS_ERR_VALIDATION ∧
    e = CONTACTS_ERR_VALIDATION ∧
    mutateRef ops ((runBatch (mutateRef ops) dir rs1).2) r =
      (errResult r e "mutation failed", (runBatch (mutateRef ops) dir rs1).2) ∧
    (contacts_mutate dir ⟨rs1 ++ r :: rs2, ops⟩).1 =
      (runBatch (mutateRef ops) dir rs1).1 ++
        errResult r e "mutation failed" ::
          (runBatch (mutateRef ops) ((runBatch (mutateRef ops) dir rs1).2) rs2).1 ∧
    (contacts_mutate dir ⟨rs1 ++ r :: rs2, ops⟩).1.length =
      rs1.length + 1 + rs2.length := by
  have hitem : mutateRef ops ((runBatch (mutateRef ops) dir rs1).2) r =
      (errResult r e "mutation failed", (runBatch (mutateRef ops) dir rs1).2) :=
    mutateRef_failed ops _ r c2 e hfind hfail
  refine ⟨applyOp_unrecognized c op hop, runOps_active_failed ops c2 e hfail,
    hitem, ?_, ?_⟩
  · show (runBatch (mutateRef ops) dir (rs1 ++ r :: rs2)).1 = _
    rw [runBatch_append, runBatch_cons, hitem]
  · show (runBatch (mutateRef ops) dir (rs1 ++ r :: rs2)).1.length = _
    rw [runBatch_length]
    simp [Nat.add_comm, Nat.add_assoc, Nat.add_left_comm]

theorem mutate_unrecognized_validation_witness :
    mutateRef [⟨99, "bad"⟩] sampleDir sampleRef =
      (errResult sampleRef CONTACTS_ERR_VALIDATION "mutation failed", sampleDir) := by
  have h := (mutate_unrecognized_validation sampleContact sampleContact
      ⟨99, "bad"⟩ sampleDir sampleRef [⟨99, "bad"⟩] CONTACTS_ERR_VALIDATION
      [] [sampleRef2] (by decide) rfl rfl).2.2.1
  simpa using h

/-- C1: every batch entry point returns exactly one WriteResult per input
item, in input order — for upsert the Drafts' results come first, then the
Patches' results, each patch result carrying its patch's Reference
positionally; mutate returns one result per target Reference in order; a
group action returns its single result; and an item-level NotFound failure
is recorded at that item's position while leaving the Directory untouched,
so every sibling item is processed exactly as it would be without the
failing item. -/
theorem batch_results_positional
    (dir : Directory) (creates : List ContactsDraft)
    (patches ps1 ps2 : List ContactsPatch) (p : ContactsPatch)
    (mreq : ContactsMutateRequest) (greq : ContactsGroupsRequest)
    (hact : greq.action = CONTACTS_GROUPS_CREATE ∨
      greq.action = CONTACTS_GROUPS_RENAME ∨ greq.action = CONTACTS_GROUPS_DELETE)
    (hnf : ((runBatch applyPatchItem (runBatch applyDraft dir creates).2 ps1).2).find
        p.ref.id = none) :
    (contacts_upsert dir ⟨creates, patches⟩).1.length =
      creates.length + patches.length ∧
    (contacts_upsert dir ⟨creates, patches⟩).1 =
      (runBatch applyDraft dir creates).1 ++
        (runBatch applyPatchItem (runBatch applyDraft dir creates).2 patches).1 ∧
    ((runBatch applyPatchItem (runBatch applyDraft dir creates).2 patches).1).map
        (fun res => res.ref) = patches.map (fun q => q.ref) ∧
    ((contacts_mutate dir mreq).1).map (fun res => res.ref) = mreq.refs ∧
    (contacts_mutate dir mreq).1.length = mreq.refs.length ∧
    ((contacts_groups dir greq).1).results.length = 1 ∧
    (contacts_upsert dir ⟨creates, ps1 ++ p :: ps2⟩).1 =
      (runBatch applyDraft dir creates).1 ++
        ((runBatch applyPatchItem (runBatch applyDraft dir creates).2 ps1).1 ++
          errResult p.ref CONTACTS_ERR_NOT_FOUND "record not found" ::
            (runBatch applyPatchItem
              (runBatch applyPatchItem (runBatch applyDraft dir creates).2 ps1).2
              ps2).1) := by
  refine ⟨?_, rfl, ?_, ?_, ?_, ?_, ?_⟩
  · show ((runBatch applyDraft dir creates).1 ++ _).length = _
    rw [List.length_append, runBatch_length, runBatch_length]
  · exact runBatch_map_ref applyPatchItem (fun q => q.ref) applyPatchItem_ref _ patches
  · show ((runBatch (mutateRef mreq.ops) dir mreq.refs).1).map (fun res => res.ref) =
      mreq.refs
    rw [runBatch_map_ref (mutateRef mreq.ops) (fun r => r)
      (mutateRef_ref mreq.ops) dir mreq.refs]
    simp
  · exact runBatch_length (mutateRef mreq.ops) dir mreq.refs
  · rcases hact with h | h | h <;>
      simp [contacts_groups, h, CONTACTS_GROUPS_LIST, CONTACTS_GROUPS_CREATE,
        CONTACTS_GROUPS_RENAME, CONTACTS_GROUPS_DELETE] <;>
      split <;> simp
  · show (runBatch applyDraft dir creates).1 ++
      (runBatch applyPatchItem (runBatch applyDraft dir creates).2
        (ps1 ++ p :: ps2)).1 = _
    rw [runBatch_append, runBatch_cons, applyPatchItem_notfound _ _ hnf]

theorem batch_results_positional_witness :
    (contacts_upsert sampleDir ⟨[sampleDraft], []⟩).1.length =
      [sampleDraft].length + ([] : List ContactsPatch).length :=
  (batch_results_positional sampleDir [sampleDraft] [] [noopPatch] []
      missingPatch ⟨[sampleRef], []⟩ ⟨CONTACTS_GROUPS_CREATE, "g1", "New", "cont"⟩
      (Or.inl rfl) rfl).1

/-- C10: every WriteResult produced by upsert, mutate or groups is
well-formed: success implies error code `CONTACTS_ERR_NONE` (0) with no
message, failure implies one of the non-zero enumerated codes, and
`created` and `updated` are never both set; moreover `created` arises only
from creation items (Drafts, or the group-create action) and `updated` only
from existing-record writes (patches, mutations, group rename/delete). -/
theorem writeresult_wellformed (dir d : Directory) (ureq : ContactsUpsertRequest)
    (mreq : ContactsMutateRequest) (greq : ContactsGroupsRequest)
    (ds : List ContactsDraft) (ps : List ContactsPatch) :
    (∀ res ∈ (contacts_upsert dir ureq).1, WFResult res) ∧
    (∀ res ∈ (contacts_mutate dir mreq).1, WFResult res) ∧
    (∀ res ∈ ((contacts_groups dir greq).1).results, WFResult res) ∧
    (∀ res ∈ (runBatch applyDraft d ds).1, res.created = true ∧ res.updated = false) ∧
    (∀ res ∈ (runBatch applyPatchItem d ps).1, res.created = false) ∧
    (∀ res ∈ (contacts_mutate dir mreq).1, res.created = false) ∧
    (∀ res ∈ ((contacts_groups dir greq).1).results,
      (res.created = true → greq.action = CONTACTS_GROUPS_CREATE) ∧
      (res.updated = true → greq.action = CONTACTS_GROUPS_RENAME ∨
        greq.action = CONTACTS_GROUPS_DELETE)) := by
  refine ⟨?_, ?_, ?_, ?_, ?_, ?_, ?_⟩
  · intro res hres
    rcases List.mem_append.mp hres with h | h
    · obtain ⟨d1, x, -, rfl⟩ := runBatch_mem applyDraft dir ureq.creates res h
      exact WF_okCreated _
    · obtain ⟨d1, x, -, rfl⟩ := runBatch_mem applyPatchItem _ ureq.patches res h
      rcases applyPatchItem_cases d1 x with hc | hc <;> rw [hc]
      · exact WF_errResult _ _ _ (by decide)
      · exact WF_okUpdated _
  · intro res hres
    obtain ⟨d1, x, -, rfl⟩ := runBatch_mem (mutateRef mreq.ops) dir mreq.refs res hres
    exact (mutateRef_wf mreq.ops d1 x).1
  · intro res hres
    unfold contacts_groups at hres
    repeat' split at hres
    all_goals
      first
        | exact absurd hres (List.not_mem_nil res)
        | (rw [List.mem_singleton] at hres; subst hres;
           first
             | exact WF_okCreated _
             | exact WF_okUpdated _
             | exact WF_errResult _ _ _ (by decide))
  · intro res hres
    obtain ⟨d1, x, -, rfl⟩ := runBatch_mem applyDraft d ds res hres
    exact ⟨rfl, rfl⟩
  · intro res hres
    obtain ⟨d1, x, -, rfl⟩ := runBatch_mem applyPatchItem d ps res hres
    rcases applyPatchItem_cases d1 x with hc | hc <;> rw [hc]
    · rfl
    · rfl
  · intro res hres
    obtain ⟨d1, x, -, rfl⟩ := runBatch_mem (mutateRef mreq.ops) dir mreq.refs res hres
    exact (mutateRef_wf mreq.ops d1 x).2
  · intro res hres
    unfold contacts_groups at hres
    repeat' split at hres
    all_goals
      first
        | exact absurd hres (List.not_mem_nil res)
        | (rw [List.mem_singleton] at hres; subst hres;
           constructor <;> intro hflag <;>
             simp_all [okCreated, okUpdated, errResult])

theorem writeresult_wellformed_witness :
    ((applyDraft sampleDir sampleDraft).1).created = true ∧
    ((applyDraft sampleDir sampleDraft).1).updated = false :=
  (writeresult_wellformed sampleDir sampleDir ⟨[], []⟩ ⟨[], []⟩
      ⟨CONTACTS_GROUPS_LIST, "", "", ""⟩ [sampleDraft] []).2.2.2.1
    ((applyDraft sampleDir sampleDraft).1) (by simp [runBatch_cons, runBatch_nil])

end Contacts
